import Mathlib

/-!
Verification of the WDI autofocus device adapter (`DeviceAdapters/Zaber/WdiAutofocus`)
and of the scripting-camera bridge (`CPyCamera`).

The adapter is embedded as a pure state machine: the mutable member fields of the
`WdiAutofocus` class become an explicit `AdapterState`, the behaviour of the external
transport (reachability of the endpoint, success of device reads and writes, the
values the device reports) is an explicit `Env` record, and every operation returns
its new state together with a trace of the device interactions it performed.
Connection bookkeeping (`ZaberBase::ensureConnected`, `ZaberBase::resetConnection`,
`ZaberBase::handleException`) lives in `Zaber.h`/`Zaber.cpp`, which are not among the
provided sources; those definitions are modelled from the specification and are
marked as such in their doc comments.  Everything else is translated directly from
`WdiAutofocus.cpp` / `WdiAutofocus.h` and, for the camera, from `PyCamera`.
-/

namespace Wdi

/-- Success return code of the Micro-Manager device API (`DEVICE_OK`). -/
def DEVICE_OK : Int := 0

/-- Error classes of the adapter, following the taxonomy of the design document:
connection establishment failures and transport faults during an established
session. -/
inductive DevErr where
  | connectionError
  | deviceCommunicationError
deriving DecidableEq, Repr

/-- Modelled from the spec: `ZaberBase::handleException` (declared in `Zaber.h`, not
among the provided sources) catches a thrown error and converts it into a nonzero
device return code; the exact numeric codes are immaterial, only that they differ
from `DEVICE_OK`. -/
def errCode : DevErr → Int
  | DevErr.connectionError => 102
  | DevErr.deviceCommunicationError => 103

/-- Conversion factor `WdiAutofocus_::xLdaNativePerMm` (WdiAutofocus.h:30): native
device units per millimetre. -/
def xLdaNativePerMm : Rat := 1000000

/-- The mutable configuration members of the `WdiAutofocus` class
(WdiAutofocus.h:79-87).  C++ doubles are modelled as rationals. -/
structure Config where
  wdiHost : String
  wdiPort : Int
  focusAddress : Int
  focusAxis : Int
  objectiveTurretAddress : Int
  limitMin : Rat
  limitMax : Rat
deriving DecidableEq, Repr

/-- Default member values set by the `WdiAutofocus::WdiAutofocus` constructor
(WdiAutofocus.cpp:34-42). -/
def initialConfig : Config :=
  { wdiHost := "Undefined", wdiPort := 27, focusAddress := 1, focusAxis := 1,
    objectiveTurretAddress := -1, limitMin := 0, limitMax := 25 }

/-- An established connection: the endpoint and sub-device handles resolved by
`WdiAutofocus::onNewConnection` (WdiAutofocus.cpp:357-366).  `turret` records the
optional secondary sub-device (`std::optional<zml::Device>`). -/
structure Conn where
  host : String
  port : Int
  focusAddress : Int
  focusAxis : Int
  turret : Option Int
deriving DecidableEq, Repr

/-- The adapter state: the `initialized_` flag, the configuration members, and the
current connection (`none` is the Disconnected state). -/
structure AdapterState where
  inited : Bool
  cfg : Config
  conn : Option Conn
deriving DecidableEq, Repr

/-- Behaviour of the external transport and device, supplied as an oracle: whether
the endpoint is reachable, whether device reads and writes succeed, and the values
the device would report. -/
structure Env where
  reachable : Bool
  readOk : Bool
  writeOk : Bool
  axisBusy : Bool
  inFocus : Bool
  rawValue : Int
deriving DecidableEq, Repr

/-- Device interactions an operation may perform, recorded as a trace. -/
inductive DevAction where
  | connectAttempt (host : String) (port : Int)
  | resolveSecondary (address : Int)
  | writeLimitMin (native : Rat)
  | writeLimitMax (native : Rat)
  | readBusy
  | readStatus
  | genericRead (register : Int)
deriving DecidableEq, Repr

/-- The two property-callback phases of the device-management framework
(`MM::BeforeGet` reads the member into the property, `MM::AfterSet` writes the
property into the member). -/
inductive ActionType where
  | BeforeGet
  | AfterSet
deriving DecidableEq, Repr

/-- Result of a property handler: the returned device code, the property cell after
the call, the new adapter state, and the trace of device interactions. -/
structure HandlerOut (V : Type) where
  code : Int
  prop : V
  adapter : AdapterState
  trace : List DevAction
deriving DecidableEq, Repr

/-- Result of a boolean status query (`Busy`, `IsContinuousFocusLocked`). -/
structure QueryOut where
  answer : Bool
  adapter : AdapterState
  trace : List DevAction
deriving DecidableEq, Repr

/-- Result of `GetContinuousFocusing`: the returned device code and the value of the
caller's `bool& state` out-parameter after the call. -/
structure GcfOut where
  code : Int
  flag : Bool
  adapter : AdapterState
  trace : List DevAction
deriving DecidableEq, Repr

/-- Result of `ReadWdiPosition`: the returned device code and the value of the
caller's `float& position` out-parameter after the call. -/
structure PositionOut where
  code : Int
  position : Rat
  adapter : AdapterState
  trace : List DevAction
deriving DecidableEq, Repr

/-- Result of `GetCurrentFocusScore`: the returned device code and the value of the
caller's `double& score` out-parameter after the call. -/
structure ScoreOut where
  code : Int
  score : Rat
  adapter : AdapterState
  trace : List DevAction
deriving DecidableEq, Repr

/-- Result of the connection-establishment step: an optional error, the adapter
state after the step, and the trace of device interactions. -/
structure ConnectOut where
  err : Option DevErr
  adapter : AdapterState
  trace : List DevAction
deriving DecidableEq, Repr

/-- Embedding of `WdiAutofocus::onNewConnection` (WdiAutofocus.cpp:357-366): opens
the TCP provider, resolves the focus axis, and resolves the objective turret device
exactly when `objectiveTurretAddress_ > 0`. -/
def onNewConnection (cfg : Config) : Conn × List DevAction :=
  let turret := if cfg.objectiveTurretAddress > 0 then some cfg.objectiveTurretAddress else none
  ({ host := cfg.wdiHost, port := cfg.wdiPort, focusAddress := cfg.focusAddress,
     focusAxis := cfg.focusAxis, turret := turret },
   DevAction.connectAttempt cfg.wdiHost cfg.wdiPort ::
     (match turret with
      | some a => [DevAction.resolveSecondary a]
      | none => []))

/-- Modelled from the spec: `ZaberBase::ensureConnected` (declared in `Zaber.h`, not
among the provided sources) is a no-op when a connection exists; otherwise it opens
the endpoint and calls the `onNewConnection` override, failing with a connection
error — and leaving the state unchanged — when the endpoint is unreachable. -/
def ensureConnected (env : Env) (s : AdapterState) : ConnectOut :=
  match s.conn with
  | some _ => ⟨none, s, []⟩
  | none =>
    if env.reachable then
      let p := onNewConnection s.cfg
      ⟨none, { s with conn := some p.1 }, p.2⟩
    else
      ⟨some DevErr.connectionError, s, [DevAction.connectAttempt s.cfg.wdiHost s.cfg.wdiPort]⟩

/-- Modelled from the spec: `ZaberBase::resetConnection` (declared in `Zaber.h`, not
among the provided sources) discards the current connection, forcing lazy
re-establishment on next use. -/
def resetConnection (s : AdapterState) : AdapterState :=
  { s with conn := none }

/-- Embedding of `WdiAutofocus::WdiHostGetSet` (WdiAutofocus.cpp:175-196). -/
def WdiHostGetSet (eAct : ActionType) (prop : String) (s : AdapterState) :
    HandlerOut String :=
  match eAct with
  | ActionType.BeforeGet => ⟨DEVICE_OK, s.cfg.wdiHost, s, []⟩
  | ActionType.AfterSet =>
    let s1 := if s.inited then resetConnection s else s
    ⟨DEVICE_OK, prop, { s1 with cfg := { s1.cfg with wdiHost := prop } }, []⟩

/-- Embedding of `WdiAutofocus::WdiPortGetSet` (WdiAutofocus.cpp:198-219). -/
def WdiPortGetSet (eAct : ActionType) (prop : Int) (s : AdapterState) :
    HandlerOut Int :=
  match eAct with
  | ActionType.BeforeGet => ⟨DEVICE_OK, s.cfg.wdiPort, s, []⟩
  | ActionType.AfterSet =>
    let s1 := if s.inited then resetConnection s else s
    ⟨DEVICE_OK, prop, { s1 with cfg := { s1.cfg with wdiPort := prop } }, []⟩

/-- Embedding of `WdiAutofocus::FocusAddressGetSet` (WdiAutofocus.cpp:244-263). -/
def FocusAddressGetSet (eAct : ActionType) (prop : Int) (s : AdapterState) :
    HandlerOut Int :=
  match eAct with
  | ActionType.BeforeGet => ⟨DEVICE_OK, s.cfg.focusAddress, s, []⟩
  | ActionType.AfterSet =>
    let s1 := if s.inited then resetConnection s else s
    ⟨DEVICE_OK, prop, { s1 with cfg := { s1.cfg with focusAddress := prop } }, []⟩

/-- Embedding of `WdiAutofocus::FocusAxisGetSet` (WdiAutofocus.cpp:265-284). -/
def FocusAxisGetSet (eAct : ActionType) (prop : Int) (s : AdapterState) :
    HandlerOut Int :=
  match eAct with
  | ActionType.BeforeGet => ⟨DEVICE_OK, s.cfg.focusAxis, s, []⟩
  | ActionType.AfterSet =>
    let s1 := if s.inited then resetConnection s else s
    ⟨DEVICE_OK, prop, { s1 with cfg := { s1.cfg with focusAxis := prop } }, []⟩

/-- Embedding of `WdiAutofocus::ObjectiveTurretAddressGetSet`
(WdiAutofocus.cpp:286-305). -/
def ObjectiveTurretAddressGetSet (eAct : ActionType) (prop : Int) (s : AdapterState) :
    HandlerOut Int :=
  match eAct with
  | ActionType.BeforeGet => ⟨DEVICE_OK, s.cfg.objectiveTurretAddress, s, []⟩
  | ActionType.AfterSet =>
    let s1 := if s.inited then resetConnection s else s
    ⟨DEVICE_OK, prop, { s1 with cfg := { s1.cfg with objectiveTurretAddress := prop } }, []⟩

/-- Embedding of `WdiAutofocus::LimitMinGetSet` (WdiAutofocus.cpp:307-330): the
member is assigned first; when the value changed, the adapter connects if needed and
pushes the limit scaled by `xLdaNativePerMm` to the device. -/
def LimitMinGetSet (eAct : ActionType) (prop : Rat) (env : Env) (s : AdapterState) :
    HandlerOut Rat :=
  match eAct with
  | ActionType.BeforeGet => ⟨DEVICE_OK, s.cfg.limitMin, s, []⟩
  | ActionType.AfterSet =>
    let s1 := { s with cfg := { s.cfg with limitMin := prop } }
    if s.cfg.limitMin ≠ prop then
      let r := ensureConnected env s1
      match r.err with
      | some e => ⟨errCode e, prop, r.adapter, r.trace⟩
      | none =>
        if env.writeOk then
          ⟨DEVICE_OK, prop, r.adapter,
            r.trace ++ [DevAction.writeLimitMin (prop * xLdaNativePerMm)]⟩
        else
          ⟨errCode DevErr.deviceCommunicationError, prop, r.adapter,
            r.trace ++ [DevAction.writeLimitMin (prop * xLdaNativePerMm)]⟩
    else ⟨DEVICE_OK, prop, s1, []⟩

/-- Embedding of `WdiAutofocus::LimitMaxGetSet` (WdiAutofocus.cpp:332-355). -/
def LimitMaxGetSet (eAct : ActionType) (prop : Rat) (env : Env) (s : AdapterState) :
    HandlerOut Rat :=
  match eAct with
  | ActionType.BeforeGet => ⟨DEVICE_OK, s.cfg.limitMax, s, []⟩
  | ActionType.AfterSet =>
    let s1 := { s with cfg := { s.cfg with limitMax := prop } }
    if s.cfg.limitMax ≠ prop then
      let r := ensureConnected env s1
      match r.err with
      | some e => ⟨errCode e, prop, r.adapter, r.trace⟩
      | none =>
        if env.writeOk then
          ⟨DEVICE_OK, prop, r.adapter,
            r.trace ++ [DevAction.writeLimitMax (prop * xLdaNativePerMm)]⟩
        else
          ⟨errCode DevErr.deviceCommunicationError, prop, r.adapter,
            r.trace ++ [DevAction.writeLimitMax (prop * xLdaNativePerMm)]⟩
    else ⟨DEVICE_OK, prop, s1, []⟩

/-- Embedding of `WdiAutofocus::Busy` (WdiAutofocus.cpp:156-166): `busy` starts
false, the handled block connects and reads the axis busy flag, and the method
returns `ret == DEVICE_OK && busy`. -/
def Busy (env : Env) (s : AdapterState) : QueryOut :=
  let r := ensureConnected env s
  match r.err with
  | some _ => ⟨false, r.adapter, r.trace⟩
  | none =>
    if env.readOk then ⟨env.axisBusy, r.adapter, r.trace ++ [DevAction.readBusy]⟩
    else ⟨false, r.adapter, r.trace ++ [DevAction.readBusy]⟩

/-- Embedding of `WdiAutofocus::IsContinuousFocusLocked` (WdiAutofocus.cpp:439-449):
`locked` starts false, the handled block connects and reads the in-focus status
flag, and the method returns `ret == DEVICE_OK && locked`. -/
def IsContinuousFocusLocked (env : Env) (s : AdapterState) : QueryOut :=
  let r := ensureConnected env s
  match r.err with
  | some _ => ⟨false, r.adapter, r.trace⟩
  | none =>
    if env.readOk then ⟨env.inFocus, r.adapter, r.trace ++ [DevAction.readStatus]⟩
    else ⟨false, r.adapter, r.trace ++ [DevAction.readStatus]⟩

/-- Embedding of `WdiAutofocus::GetContinuousFocusing` (WdiAutofocus.cpp:430-437):
returns the code produced by the handled block; on failure the out-parameter `state`
is left at the value the caller passed in. -/
def GetContinuousFocusing (env : Env) (flagArg : Bool) (s : AdapterState) : GcfOut :=
  let r := ensureConnected env s
  match r.err with
  | some e => ⟨errCode e, flagArg, r.adapter, r.trace⟩
  | none =>
    if env.readOk then ⟨DEVICE_OK, env.axisBusy, r.adapter, r.trace ++ [DevAction.readBusy]⟩
    else ⟨errCode DevErr.deviceCommunicationError, flagArg, r.adapter,
      r.trace ++ [DevAction.readBusy]⟩

/-- Embedding of `WdiAutofocus::ReadWdiPosition` (WdiAutofocus.cpp:451-458): a
generic read of register 41 whose first element is divided by 1024; on failure the
out-parameter keeps the (indeterminate) value it had before the call. -/
def ReadWdiPosition (env : Env) (positionArg : Rat) (s : AdapterState) : PositionOut :=
  let r := ensureConnected env s
  match r.err with
  | some e => ⟨errCode e, positionArg, r.adapter, r.trace⟩
  | none =>
    if env.readOk then
      ⟨DEVICE_OK, (env.rawValue : Rat) / 1024, r.adapter,
        r.trace ++ [DevAction.genericRead 41]⟩
    else
      ⟨errCode DevErr.deviceCommunicationError, positionArg, r.adapter,
        r.trace ++ [DevAction.genericRead 41]⟩

/-- Embedding of `WdiAutofocus::GetCurrentFocusScore` (WdiAutofocus.cpp:393-399):
reads the WDI position into a fresh local and returns its absolute value as the
score, propagating the read's return code.  `positionArg` stands for the
indeterminate initial value of the uninitialised local `float position`. -/
def GetCurrentFocusScore (env : Env) (positionArg : Rat) (s : AdapterState) : ScoreOut :=
  let r := ReadWdiPosition env positionArg s
  ⟨r.code, |r.position|, r.adapter, r.trace⟩

/-- Property-limit registrations performed by the `WdiAutofocus::WdiAutofocus`
constructor, in call order (WdiAutofocus.cpp:66, 70 and 74).  The third call — made
right after the "Objective Turret Device Number" property is created — passes the
name "Focus Stage Axis Number". -/
def constructorPropertyLimits : List (String × Int × Int) :=
  [("Focus Stage Device Number", 1, 99),
   ("Focus Stage Axis Number", 1, 99),
   ("Focus Stage Axis Number", -1, 99)]

/-- Modelled from the spec: the host framework's `SetPropertyLimits` (not among the
provided sources) keeps one limit interval per property name, a later registration
replacing an earlier one, and rejects out-of-bounds property writes before any
device interaction; a property with no registered interval is unconstrained. -/
def registeredLimits (name : String) : Option (Int × Int) :=
  ((constructorPropertyLimits.filter (fun p => p.1 == name)).getLast?).map
    (fun p => p.2)

end Wdi

namespace PyCam

/-- Type number of 16-bit unsigned numpy elements (`NPY_UINT16` = `NPY_USHORT`). -/
def NPY_UINT16 : Int := 4

/-- Flag bit for C-contiguous numpy arrays (`NPY_ARRAY_C_CONTIGUOUS`). -/
def NPY_ARRAY_C_CONTIGUOUS : Nat := 1

/-- The facts about a numpy array object that `CPyCamera::GetImageBuffer` inspects:
dimensionality, element type number, flag word, the first two dimensions, and the
data pointer. -/
structure NpArray where
  ndim : Nat
  typeNum : Int
  flags : Nat
  dim0 : Int
  dim1 : Int
  dataPtr : Nat
deriving DecidableEq, Repr

/-- Result of the scripting object's `read` call: either not a numpy array at all,
or a numpy array. -/
inductive PyReadValue where
  | nonArray
  | array (a : NpArray)
deriving DecidableEq, Repr

/-- Behaviour of the scripting object, supplied as an oracle: whether `CheckError`
reports a failure after `read`, the value `read` produced, and the `width` and
`height` attributes as signed longs. -/
structure CameraEnv where
  readError : Bool
  readValue : PyReadValue
  widthProp : Int
  heightProp : Int
deriving DecidableEq, Repr

/-- Embedding of `CPyCamera::GetImageWidth` (part_000:72-75): the `width` attribute
read as a long and returned as an `unsigned`, hence reduced modulo 2^32. -/
def GetImageWidth (env : CameraEnv) : Int :=
  env.widthProp % (2 ^ 32)

/-- Embedding of `CPyCamera::GetImageHeight` (part_000:81-84). -/
def GetImageHeight (env : CameraEnv) : Int :=
  env.heightProp % (2 ^ 32)

/-- Embedding of `CPyCamera::GetImageBuffer` (part_000:37-66): returns the data
pointer only when `read` succeeded, produced a 2-dimensional C-contiguous uint16
numpy array, and its dimensions equal `(GetImageHeight, GetImageWidth)`; in every
other case it returns null (`none`). -/
def GetImageBuffer (env : CameraEnv) : Option Nat :=
  if env.readError then none
  else
    match env.readValue with
    | PyReadValue.nonArray => none
    | PyReadValue.array a =>
      if a.ndim ≠ 2 ∨ a.typeNum ≠ NPY_UINT16 ∨ a.flags &&& NPY_ARRAY_C_CONTIGUOUS = 0 then
        none
      else
        if a.dim1 ≠ GetImageWidth env ∨ a.dim0 ≠ GetImageHeight env then none
        else some a.dataPtr

/-- Camera oracle fixture: a successful read of a well-formed 4x3 uint16 array. -/
def envCam : CameraEnv :=
  ⟨false, PyReadValue.array ⟨2, 4, 1, 3, 4, 42⟩, 4, 3⟩

end PyCam

namespace Wdi

/-- Connection fixture: the connection resolved from the constructor defaults. -/
def connA : Conn := (onNewConnection initialConfig).1

/-- State fixture: an initialized, connected adapter. -/
def stConn : AdapterState := ⟨true, initialConfig, some connA⟩

/-- State fixture: a connected adapter whose initialization did not complete
(`Initialize` connects before setting `initialized_`, so this state is reached when
`Initialize` fails after `ensureConnected` succeeded, WdiAutofocus.cpp:106-118). -/
def stConnNoInit : AdapterState := ⟨false, initialConfig, some connA⟩

/-- State fixture: an initialized adapter with no connection. -/
def stDisc : AdapterState := ⟨true, initialConfig, none⟩

/-- Transport oracle fixture: reachable endpoint whose reads fail. -/
def envReadFail : Env := ⟨true, false, true, false, false, 0⟩

/-- Transport oracle fixture: everything works, the device reporting raw -2048. -/
def envRaw2048 : Env := ⟨true, true, true, true, true, -2048⟩

/-- Transport oracle fixture: everything works, the device reporting raw 512. -/
def envRaw512 : Env := ⟨true, true, true, true, true, 512⟩

/-- Transport oracle fixture: reachable endpoint whose writes fail. -/
def envWriteFail : Env := ⟨true, true, false, false, false, 0⟩

/-- Transport oracle fixture: unreachable endpoint. -/
def envUnreachable : Env := ⟨false, true, true, false, false, 0⟩

end Wdi

namespace Wdi

/-- Claim C1 counterexample: with a connected adapter and a failing transport read,
`GetContinuousFocusing` does propagate an error to the caller — it returns a nonzero
device code and leaves the caller's flag untouched — contradicting the claim that
none of the three status queries ever propagates an error. -/
theorem getContinuousFocusing_propagates_error :
    (GetContinuousFocusing envReadFail true stConn).code ≠ DEVICE_OK ∧
    (GetContinuousFocusing envReadFail true stConn).flag = true := by
  decide

/-- Claim C1 (amended): when the underlying transport read fails, `Busy` and
`IsContinuousFocusLocked` return false and never propagate an error, while
`GetContinuousFocusing` returns a nonzero error code and leaves the caller's flag
unassigned. -/
theorem status_queries_on_read_failure (env : Env) (s : AdapterState) (b : Bool)
    (h : env.readOk = false) :
    (Busy env s).answer = false ∧
    (IsContinuousFocusLocked env s).answer = false ∧
    (GetContinuousFocusing env b s).code ≠ DEVICE_OK ∧
    (GetContinuousFocusing env b s).flag = b := by
  unfold Busy IsContinuousFocusLocked GetContinuousFocusing ensureConnected
  cases hc : s.conn with
  | some c => simp [h, errCode, DEVICE_OK]
  | none =>
    by_cases hr : env.reachable <;> simp [h, hr, errCode, DEVICE_OK]

/-- Witness for `status_queries_on_read_failure` at a concrete connected state and
a concrete failing-read transport. -/
theorem status_queries_on_read_failure_witness :
    (Busy envReadFail stConn).answer = false ∧
    (IsContinuousFocusLocked envReadFail stConn).answer = false ∧
    (GetContinuousFocusing envReadFail true stConn).code ≠ DEVICE_OK ∧
    (GetContinuousFocusing envReadFail true stConn).flag = true :=
  status_queries_on_read_failure envReadFail stConn true rfl

/-- Claim C6: during connection establishment the secondary (objective turret)
sub-device is resolved if and only if the configured secondary address is strictly
positive; in particular no secondary resolution is attempted for 0 or -1. -/
theorem secondary_resolved_iff_positive_address (cfg : Config) :
    ((onNewConnection cfg).1.turret.isSome = true ↔ 0 < cfg.objectiveTurretAddress) ∧
    ((∃ a, DevAction.resolveSecondary a ∈ (onNewConnection cfg).2) ↔
      0 < cfg.objectiveTurretAddress) := by
  unfold onNewConnection
  by_cases h : 0 < cfg.objectiveTurretAddress <;> simp [h]

/-- Claim C8: a failing `ensureConnected` reports a connection error and leaves the
state exactly as it was (hence Disconnected, with no partial state), and a retry
against a reachable endpoint succeeds and establishes a connection. -/
theorem ensureConnected_failure_then_retry (env envR : Env) (s : AdapterState)
    (hdisc : s.conn = none) (hun : env.reachable = false) (hre : envR.reachable = true) :
    (ensureConnected env s).err = some DevErr.connectionError ∧
    (ensureConnected env s).adapter = s ∧
    (ensureConnected envR (ensureConnected env s).adapter).err = none ∧
    ∃ c, (ensureConnected envR (ensureConnected env s).adapter).adapter.conn = some c := by
  unfold ensureConnected
  simp [hdisc, hun, hre]

/-- Witness for `ensureConnected_failure_then_retry` at a concrete disconnected
state, an unreachable transport and a reachable retry transport. -/
theorem ensureConnected_failure_then_retry_witness :
    (ensureConnected envUnreachable stDisc).err = some DevErr.connectionError ∧
    (ensureConnected envUnreachable stDisc).adapter = stDisc ∧
    (ensureConnected envRaw2048 (ensureConnected envUnreachable stDisc).adapter).err = none ∧
    ∃ c, (ensureConnected envRaw2048
      (ensureConnected envUnreachable stDisc).adapter).adapter.conn = some c :=
  ensureConnected_failure_then_retry envUnreachable envRaw2048 stDisc rfl rfl rfl

end Wdi

namespace Wdi

/-- Claim C2: setting a limit to a new value while connected updates the in-memory
field to the requested value and issues a device write of the value scaled by
1,000,000 (native units per mm); if that write fails the handler returns the
communication error code while the in-memory field still holds the new value. -/
theorem limit_set_connected_pushes_scaled_write (env : Env) (s : AdapterState)
    (c : Conn) (v w : Rat) (hc : s.conn = some c)
    (hv : s.cfg.limitMin ≠ v) (hw : s.cfg.limitMax ≠ w) :
    (LimitMinGetSet ActionType.AfterSet v env s).adapter.cfg.limitMin = v ∧
    (LimitMinGetSet ActionType.AfterSet v env s).trace =
      [DevAction.writeLimitMin (v * 1000000)] ∧
    (env.writeOk = true → (LimitMinGetSet ActionType.AfterSet v env s).code = DEVICE_OK) ∧
    (env.writeOk = false →
      (LimitMinGetSet ActionType.AfterSet v env s).code =
        errCode DevErr.deviceCommunicationError) ∧
    (LimitMaxGetSet ActionType.AfterSet w env s).adapter.cfg.limitMax = w ∧
    (LimitMaxGetSet ActionType.AfterSet w env s).trace =
      [DevAction.writeLimitMax (w * 1000000)] ∧
    (env.writeOk = true → (LimitMaxGetSet ActionType.AfterSet w env s).code = DEVICE_OK) ∧
    (env.writeOk = false →
      (LimitMaxGetSet ActionType.AfterSet w env s).code =
        errCode DevErr.deviceCommunicationError) := by
  unfold LimitMinGetSet LimitMaxGetSet ensureConnected
  by_cases hwk : env.writeOk <;> simp [hc, hv, hw, hwk, xLdaNativePerMm]

/-- Witness for `limit_set_connected_pushes_scaled_write` at a concrete connected
state with a failing device write: the field keeps the new value and the handler
returns the communication error code. -/
theorem limit_set_connected_pushes_scaled_write_witness :
    (LimitMinGetSet ActionType.AfterSet 1 envWriteFail stConn).adapter.cfg.limitMin = 1 ∧
    (LimitMinGetSet ActionType.AfterSet 1 envWriteFail stConn).code =
      errCode DevErr.deviceCommunicationError ∧
    (LimitMinGetSet ActionType.AfterSet 1 envWriteFail stConn).trace =
      [DevAction.writeLimitMin 1000000] := by
  have h := limit_set_connected_pushes_scaled_write envWriteFail stConn connA 1 26 rfl
    (by decide) (by decide)
  refine ⟨h.1, h.2.2.2.1 rfl, ?_⟩
  rw [h.2.1]
  norm_num

/-- Claim C9: setting a limit to the value already stored is a no-op toward the
device: the state is unchanged, the trace is empty (no device write and no
connection attempt), and the handler returns success. -/
theorem limit_set_equal_value_noop (env : Env) (s : AdapterState) (v w : Rat)
    (hv : s.cfg.limitMin = v) (hw : s.cfg.limitMax = w) :
    LimitMinGetSet ActionType.AfterSet v env s = ⟨DEVICE_OK, v, s, []⟩ ∧
    LimitMaxGetSet ActionType.AfterSet w env s = ⟨DEVICE_OK, w, s, []⟩ := by
  obtain ⟨i, ⟨f1, f2, f3, f4, f5, f6, f7⟩, cn⟩ := s
  simp only [Config.limitMin, Config.limitMax] at hv hw
  subst hv hw
  simp [LimitMinGetSet, LimitMaxGetSet]

/-- Witness for `limit_set_equal_value_noop`: writing the stored defaults back is a
no-op even against an unreachable transport. -/
theorem limit_set_equal_value_noop_witness :
    LimitMinGetSet ActionType.AfterSet 0 envUnreachable stConn =
      ⟨DEVICE_OK, 0, stConn, []⟩ ∧
    LimitMaxGetSet ActionType.AfterSet 25 envUnreachable stConn =
      ⟨DEVICE_OK, 25, stConn, []⟩ :=
  limit_set_equal_value_noop envUnreachable stConn 0 25 rfl rfl

/-- Claim C4: with a live connection, `GetCurrentFocusScore` returns the absolute
value of the raw device reading divided by 1024 and the success code; on a read
failure it propagates the communication error code instead of failing soft. -/
theorem getCurrentFocusScore_value_and_error (env : Env) (s : AdapterState)
    (c : Conn) (junk : Rat) (hc : s.conn = some c) :
    (env.readOk = true →
      (GetCurrentFocusScore env junk s).code = DEVICE_OK ∧
      (GetCurrentFocusScore env junk s).score = |(env.rawValue : Rat) / 1024|) ∧
    (env.readOk = false →
      (GetCurrentFocusScore env junk s).code = errCode DevErr.deviceCommunicationError) := by
  unfold GetCurrentFocusScore ReadWdiPosition ensureConnected
  by_cases hr : env.readOk <;> simp [hc, hr]

/-- Witness for `getCurrentFocusScore_value_and_error`: raw -2048 yields score 2 and
raw 512 yields score 1/2. -/
theorem getCurrentFocusScore_value_and_error_witness :
    (GetCurrentFocusScore envRaw2048 0 stConn).score = 2 ∧
    (GetCurrentFocusScore envRaw512 0 stConn).score = 1 / 2 := by
  have h1 := (getCurrentFocusScore_value_and_error envRaw2048 stConn connA 0 rfl).1 rfl
  have h2 := (getCurrentFocusScore_value_and_error envRaw512 stConn connA 0 rfl).1 rfl
  rw [h1.2, h2.2]
  constructor
  · show |((-2048 : Int) : Rat) / 1024| = 2
    rw [abs_of_nonpos (by norm_num)]
    norm_num
  · show |((512 : Int) : Rat) / 1024| = 1 / 2
    rw [abs_of_nonneg (by norm_num)]
    norm_num

end Wdi

namespace Wdi

/-- Claim C3: the constructor registers [1,99] for the focus device number, but the
third `SetPropertyLimits` call (WdiAutofocus.cpp:74) names "Focus Stage Axis Number"
instead of the just-created "Objective Turret Device Number": the turret address
ends up unconstrained and the focus-axis bound is overwritten to [-1,99], so the
declared bounds of the claim are not enforced. -/
theorem objective_turret_limits_not_registered :
    registeredLimits "Objective Turret Device Number" = none ∧
    registeredLimits "Focus Stage Axis Number" = some (-1, 99) ∧
    registeredLimits "Focus Stage Device Number" = some (1, 99) := by
  decide

/-- Claim C5 counterexample: in the reachable state where a connection exists but
initialization did not complete, a host write leaves the connection in place (the
handler guards the reset on `initialized_`, not on connection existence), so the
next operation would reuse the connection opened for the old host. -/
theorem host_set_uninitialized_keeps_connection :
    stConnNoInit.conn = some connA ∧
    (WdiHostGetSet ActionType.AfterSet "10.0.0.2" stConnNoInit).adapter.conn = some connA ∧
    (WdiHostGetSet ActionType.AfterSet "10.0.0.2" stConnNoInit).adapter.cfg.wdiHost =
      "10.0.0.2" :=
  ⟨rfl, rfl, rfl⟩

/-- Claim C5 (amended): a write to any connection-relevant configuration field
performed while the adapter is initialized disconnects, and the next connection
establishment resolves the endpoint from the latest configuration values. -/
theorem conn_relevant_set_disconnects_then_reconnects (env : Env) (s : AdapterState)
    (host : String) (port addr ax turret : Int)
    (hinit : s.inited = true) (hr : env.reachable = true) :
    (WdiHostGetSet ActionType.AfterSet host s).adapter.conn = none ∧
    (WdiPortGetSet ActionType.AfterSet port s).adapter.conn = none ∧
    (FocusAddressGetSet ActionType.AfterSet addr s).adapter.conn = none ∧
    (FocusAxisGetSet ActionType.AfterSet ax s).adapter.conn = none ∧
    (ObjectiveTurretAddressGetSet ActionType.AfterSet turret s).adapter.conn = none ∧
    (∃ c, (ensureConnected env (WdiHostGetSet ActionType.AfterSet host s).adapter).err = none ∧
      (ensureConnected env
        (WdiHostGetSet ActionType.AfterSet host s).adapter).adapter.conn = some c ∧
      c.host = host ∧ c.port = s.cfg.wdiPort ∧ c.focusAddress = s.cfg.focusAddress ∧
      c.focusAxis = s.cfg.focusAxis) := by
  unfold WdiHostGetSet WdiPortGetSet FocusAddressGetSet FocusAxisGetSet
    ObjectiveTurretAddressGetSet ensureConnected resetConnection onNewConnection
  simp [hinit, hr]

/-- Witness for `conn_relevant_set_disconnects_then_reconnects` at a concrete
initialized connected state: the host write disconnects and the re-established
connection carries the new host. -/
theorem conn_relevant_set_disconnects_then_reconnects_witness :
    (WdiHostGetSet ActionType.AfterSet "10.0.0.9" stConn).adapter.conn = none ∧
    (∃ c, (ensureConnected envRaw2048
        (WdiHostGetSet ActionType.AfterSet "10.0.0.9" stConn).adapter).err = none ∧
      (ensureConnected envRaw2048
        (WdiHostGetSet ActionType.AfterSet "10.0.0.9" stConn).adapter).adapter.conn = some c ∧
      c.host = "10.0.0.9" ∧ c.port = stConn.cfg.wdiPort ∧
      c.focusAddress = stConn.cfg.focusAddress ∧ c.focusAxis = stConn.cfg.focusAxis) := by
  have h := conn_relevant_set_disconnects_then_reconnects envRaw2048 stConn "10.0.0.9"
    28 2 3 5 rfl rfl
  exact ⟨h.1, h.2.2.2.2.2⟩

/-- Claim C7 counterexample: writing a new limit while disconnected does change the
connection state — the handler calls `ensureConnected`, which establishes a
connection — refuting the claim that the state is unchanged after any limit
write. -/
theorem limit_set_disconnected_establishes_connection :
    stDisc.conn = none ∧
    (LimitMinGetSet ActionType.AfterSet 1 envRaw2048 stDisc).adapter.conn ≠ none := by
  refine ⟨rfl, ?_⟩
  decide

/-- Claim C7 (amended): a limit write never invalidates a live connection — the
connection present before the write is still present, unchanged, after it — while a
changed-value write issued when disconnected may establish a connection. -/
theorem limit_set_preserves_live_connection (env : Env) (s : AdapterState)
    (c : Conn) (v w : Rat) (hc : s.conn = some c) :
    (LimitMinGetSet ActionType.AfterSet v env s).adapter.conn = some c ∧
    (LimitMaxGetSet ActionType.AfterSet w env s).adapter.conn = some c := by
  unfold LimitMinGetSet LimitMaxGetSet ensureConnected
  by_cases hv : s.cfg.limitMin = v <;> by_cases hw : s.cfg.limitMax = w <;>
    by_cases hwk : env.writeOk <;> simp [hc, hv, hw, hwk]

/-- Witness for `limit_set_preserves_live_connection` at a concrete connected state
with a failing device write: the connection survives both limit writes. -/
theorem limit_set_preserves_live_connection_witness :
    (LimitMinGetSet ActionType.AfterSet 1 envWriteFail stConn).adapter.conn = some connA ∧
    (LimitMaxGetSet ActionType.AfterSet 26 envWriteFail stConn).adapter.conn = some connA :=
  limit_set_preserves_live_connection envWriteFail stConn connA 1 26 rfl

end Wdi

namespace PyCam

/-- Claim C10: `GetImageBuffer` returns a non-null pixel pointer only when the read
succeeded and produced a 2-dimensional, C-contiguous, 16-bit-unsigned numpy array
whose dimensions equal `(GetImageHeight, GetImageWidth)`; hence a non-null buffer is
always consistent with the reported image size. -/
theorem getImageBuffer_nonnull_consistent (env : CameraEnv) (p : Nat)
    (h : GetImageBuffer env = some p) :
    env.readError = false ∧
    ∃ a, env.readValue = PyReadValue.array a ∧ a.ndim = 2 ∧
      a.typeNum = NPY_UINT16 ∧ a.flags &&& NPY_ARRAY_C_CONTIGUOUS ≠ 0 ∧
      a.dim0 = GetImageHeight env ∧ a.dim1 = GetImageWidth env ∧
      a.dataPtr = p := by
  unfold GetImageBuffer at h
  split at h
  · exact absurd h (by simp)
  · rename_i he
    split at h
    · exact absurd h (by simp)
    · rename_i a hv
      split at h
      · exact absurd h (by simp)
      · rename_i hbad
        split at h
        · exact absurd h (by simp)
        · rename_i hdim
          push_neg at hbad hdim
          exact ⟨by simpa using he, a, hv, hbad.1, hbad.2.1, hbad.2.2, hdim.2, hdim.1,
            Option.some.inj h⟩

/-- Witness for `getImageBuffer_nonnull_consistent` at a concrete well-formed read
of a 4x3 uint16 C-contiguous array. -/
theorem getImageBuffer_nonnull_consistent_witness :
    envCam.readError = false ∧
    ∃ a, envCam.readValue = PyReadValue.array a ∧ a.ndim = 2 ∧
      a.typeNum = NPY_UINT16 ∧ a.flags &&& NPY_ARRAY_C_CONTIGUOUS ≠ 0 ∧
      a.dim0 = GetImageHeight envCam ∧ a.dim1 = GetImageWidth envCam ∧
      a.dataPtr = 42 :=
  getImageBuffer_nonnull_consistent envCam 42 (by decide)

end PyCam
